import Mathlib

/-!
Verification of the hello-tiburona Soroban contract
(src/contracts/hello-world/src/lib.rs) against its specification.

The contract state is the host key-value store restricted to the keys this
contract uses: the instance-scope records Admin and ContadorSaludos, and the
persistent-scope per-user records ContadorPorUsuario and UltimoSaludo.
TTLs are tracked per record scope so that TTL-refresh claims are statable.
Addresses are modelled as natural numbers (only equality is used by the
contract) and Soroban Symbols as strings.  The u32 additions in hello are
unguarded in the source; they are embedded as wrapping additions modulo 2^32
(release-profile Rust semantics).
-/

namespace HelloTiburona

/-- 2^32, the modulus of u32 arithmetic. -/
def U32MOD : Nat := 4294967296

/-- Contract addresses; only equality on them is used by the contract. -/
abbrev Addr := Nat

/-- The error enumeration of the contract (contracterror, repr u32). -/
inductive Error where
  | NombreVacio
  | NombreMuyLargo
  | NoAutorizado
  | NoInicializado
deriving DecidableEq, Repr

/-- The u32 discriminant of each error, as assigned in the source. -/
def Error.code : Error → Nat
  | .NombreVacio => 1
  | .NombreMuyLargo => 2
  | .NoAutorizado => 3
  | .NoInicializado => 4

/-- The visible contract state: every storage record the contract reads or
writes, plus the TTL of the instance scope and of each persistent record.
Absent records are modelled as none. -/
structure State where
  admin : Option Addr
  contadorSaludos : Option Nat
  contadorPorUsuario : Addr → Option Nat
  ultimoSaludo : Addr → Option String
  instanceTtl : Nat
  contadorUsuarioTtl : Addr → Nat
  ultimoSaludoTtl : Addr → Nat

/-- The host extend_ttl operation: if the record's remaining TTL is below the
threshold, raise it to extendTo, else leave it. -/
def extendTtl (ttl threshold extendTo : Nat) : Nat :=
  if ttl < threshold then extendTo else ttl

/-- Byte length of the canonical XDR serialization of a Soroban Symbol of n
characters: a 4-byte ScVal discriminant, a 4-byte length word, and the
character data padded to a multiple of 4 bytes. -/
def symbolXdrLen (nombre : String) : Nat :=
  8 + 4 * ((nombre.length + 3) / 4)

/-- The uninitialized contract: no records exist. -/
def emptyState : State where
  admin := none
  contadorSaludos := none
  contadorPorUsuario := fun _ => none
  ultimoSaludo := fun _ => none
  instanceTtl := 0
  contadorUsuarioTtl := fun _ => 0
  ultimoSaludoTtl := fun _ => 0

/-- HelloContract::initialize: fails with NoInicializado if an Admin record
exists; otherwise stores Admin, sets ContadorSaludos to 0 and extends the
instance TTL. -/
def initContract (s : State) (admin : Addr) : Except Error Unit × State :=
  if (s.admin).isSome then
    (Except.error Error.NoInicializado, s)
  else
    (Except.ok (),
      { s with
        admin := some admin
        contadorSaludos := some 0
        instanceTtl := extendTtl s.instanceTtl 100 100 })

/-- HelloContract::hello: rejects the empty symbol with NombreVacio, rejects a
symbol whose XDR byte length exceeds 32 with NombreMuyLargo, and otherwise
increments the global and per-user counters (u32 wrapping additions), stores
the last greeting, extends the TTL of the two per-user records and of the
instance scope, and returns the symbol Hola. -/
def hello (s : State) (usuario : Addr) (nombre : String) :
    Except Error String × State :=
  if nombre = "" then
    (Except.error Error.NombreVacio, s)
  else if 32 < symbolXdrLen nombre then
    (Except.error Error.NombreMuyLargo, s)
  else
    let contador := (s.contadorSaludos).getD 0
    let userCount := (s.contadorPorUsuario usuario).getD 0
    (Except.ok "Hola",
      { s with
        contadorSaludos := some ((contador + 1) % U32MOD)
        contadorPorUsuario := fun a =>
          if a = usuario then some ((userCount + 1) % U32MOD)
          else s.contadorPorUsuario a
        contadorUsuarioTtl := fun a =>
          if a = usuario then extendTtl (s.contadorUsuarioTtl a) 100 100
          else s.contadorUsuarioTtl a
        ultimoSaludo := fun a =>
          if a = usuario then some nombre else s.ultimoSaludo a
        ultimoSaludoTtl := fun a =>
          if a = usuario then extendTtl (s.ultimoSaludoTtl a) 100 100
          else s.ultimoSaludoTtl a
        instanceTtl := extendTtl s.instanceTtl 100 100 })

/-- HelloContract::get_contador: the stored ContadorSaludos, or 0 when absent.
The state component records that the call performs no write. -/
def get_contador (s : State) : Nat × State :=
  ((s.contadorSaludos).getD 0, s)

/-- HelloContract::get_contador_usuario: the user's stored counter, or 0 when
absent.  The state component records that the call performs no write. -/
def get_contador_usuario (s : State) (usuario : Addr) : Nat × State :=
  ((s.contadorPorUsuario usuario).getD 0, s)

/-- HelloContract::get_ultimo_saludo: the user's stored last greeting, if
any.  The state component records that the call performs no write. -/
def get_ultimo_saludo (s : State) (usuario : Addr) :
    Option String × State :=
  (s.ultimoSaludo usuario, s)

/-- HelloContract::reset_contador: fails with NoInicializado when no Admin
record exists, with NoAutorizado when the caller is not the Admin, and
otherwise sets ContadorSaludos to 0. -/
def reset_contador (s : State) (caller : Addr) : Except Error Unit × State :=
  match s.admin with
  | none => (Except.error Error.NoInicializado, s)
  | some admin =>
    if caller ≠ admin then
      (Except.error Error.NoAutorizado, s)
    else
      (Except.ok (), { s with contadorSaludos := some 0 })

/-- HelloContract::transfer_admin: fails with NoInicializado when no Admin
record exists, with NoAutorizado when the caller is not the Admin, and
otherwise overwrites the Admin record with the new admin (no TTL refresh). -/
def transfer_admin (s : State) (caller nuevoAdmin : Addr) :
    Except Error Unit × State :=
  match s.admin with
  | none => (Except.error Error.NoInicializado, s)
  | some admin =>
    if caller ≠ admin then
      (Except.error Error.NoAutorizado, s)
    else
      (Except.ok (), { s with admin := some nuevoAdmin })

/-- A concrete freshly initialized state (admin 0) used in witness checks. -/
def initState : State := (initContract emptyState 0).2

/-- A concrete initialized state whose global and per-user counters sit at the
u32 maximum 2^32 - 1. -/
def maxState : State :=
  { emptyState with
    admin := some 0
    contadorSaludos := some (U32MOD - 1)
    contadorPorUsuario := fun _ => some (U32MOD - 1) }

/-- The state after k greetings by user 0 with the name A, starting from the
freshly initialized contract. -/
def helloIter : Nat → State
  | 0 => initState
  | k + 1 => (hello (helloIter k) 0 "A").2

/-- One invocation of any public mutating entry point. -/
inductive Step : State → State → Prop where
  | init (s : State) (a : Addr) : Step s (initContract s a).2
  | greet (s : State) (u : Addr) (n : String) : Step s (hello s u n).2
  | reset (s : State) (c : Addr) : Step s (reset_contador s c).2
  | transfer (s : State) (c n : Addr) : Step s (transfer_admin s c n).2

/-- A state is reachable when some sequence of contract invocations produces
it from the uninitialized contract. -/
def Reachable (s : State) : Prop :=
  Relation.ReflTransGen Step emptyState s

/-- Shape of a successful hello call: the reply is Hola and the new state is
the old one with both counters bumped modulo 2^32, the last greeting stored,
and the three TTLs extended. -/
theorem hello_ok (s : State) (usuario : Addr) (nombre : String)
    (hne : ¬ nombre = "") (hlen : ¬ 32 < symbolXdrLen nombre) :
    hello s usuario nombre =
      (Except.ok "Hola",
        { s with
          contadorSaludos := some (((s.contadorSaludos).getD 0 + 1) % U32MOD)
          contadorPorUsuario := fun a =>
            if a = usuario then
              some (((s.contadorPorUsuario usuario).getD 0 + 1) % U32MOD)
            else s.contadorPorUsuario a
          contadorUsuarioTtl := fun a =>
            if a = usuario then extendTtl (s.contadorUsuarioTtl a) 100 100
            else s.contadorUsuarioTtl a
          ultimoSaludo := fun a =>
            if a = usuario then some nombre else s.ultimoSaludo a
          ultimoSaludoTtl := fun a =>
            if a = usuario then extendTtl (s.ultimoSaludoTtl a) 100 100
            else s.ultimoSaludoTtl a
          instanceTtl := extendTtl s.instanceTtl 100 100 }) := by
  simp only [hello, if_neg hne, if_neg hlen]

/-- C4: hello with the empty symbol fails with NombreVacio for every state and
every user, and the returned state is exactly the input state. -/
theorem hello_empty_rejected (s : State) (usuario : Addr) :
    hello s usuario "" = (Except.error Error.NombreVacio, s) := rfl

/-- C8: get_contador returns the stored global counter or 0 when absent,
get_contador_usuario returns the stored per-user counter or 0 when absent,
and neither call changes the state (their state component is the input
state); neither takes a caller identity, so no authorization occurs. -/
theorem getters_pure (s : State) (usuario : Addr) :
    get_contador s = ((s.contadorSaludos).getD 0, s) ∧
    get_contador_usuario s usuario =
      ((s.contadorPorUsuario usuario).getD 0, s) ∧
    (s.contadorSaludos = none → (get_contador s).1 = 0) ∧
    (s.contadorPorUsuario usuario = none →
      (get_contador_usuario s usuario).1 = 0) := by
  refine ⟨rfl, rfl, ?_, ?_⟩ <;> intro h <;>
    simp [get_contador, get_contador_usuario, h]

theorem getters_pure_witness :
    get_contador initState = (0, initState) ∧
    (get_contador_usuario initState 7).1 = 0 :=
  ⟨(getters_pure initState 7).1.trans rfl,
   (getters_pure initState 7).2.2.2 rfl⟩

/-- C9: the error enumeration has exactly the four constructors with codes
NombreVacio = 1, NombreMuyLargo = 2, NoAutorizado = 3, NoInicializado = 4,
and the already-initialized failure of the initialization entry point
returns the code-4 error (there is no separate already-initialized code). -/
theorem error_code_numbering (s : State) (a : Addr)
    (h : (s.admin).isSome) :
    Error.NombreVacio.code = 1 ∧ Error.NombreMuyLargo.code = 2 ∧
    Error.NoAutorizado.code = 3 ∧ Error.NoInicializado.code = 4 ∧
    (∀ e : Error, e = .NombreVacio ∨ e = .NombreMuyLargo ∨
      e = .NoAutorizado ∨ e = .NoInicializado) ∧
    (initContract s a).1 = Except.error Error.NoInicializado ∧
    ∀ e e' : Error, e.code = e'.code → e = e' := by
  refine ⟨rfl, rfl, rfl, rfl, ?_, ?_, ?_⟩
  · intro e; cases e <;> simp
  · simp [initContract, h]
  · intro e e' hc; cases e <;> cases e' <;> simp_all [Error.code]

theorem error_code_numbering_witness :
    (initContract initState 5).1 = Except.error Error.NoInicializado :=
  (error_code_numbering initState 5 rfl).2.2.2.2.2.1

/-- C5: when an Admin record exists, a further initialization call fails with
the code-4 error NoInicializado and returns the state unchanged; when no
Admin record exists it succeeds, storing the admin and a zero counter. -/
theorem init_once (s : State) (a : Addr) :
    ((s.admin).isSome →
      initContract s a = (Except.error Error.NoInicializado, s) ∧
      Error.NoInicializado.code = 4) ∧
    (s.admin = none →
      (initContract s a).1 = Except.ok () ∧
      ((initContract s a).2).admin = some a ∧
      ((initContract s a).2).contadorSaludos = some 0) := by
  constructor
  · intro h; exact ⟨by simp [initContract, h], rfl⟩
  · intro h; refine ⟨?_, ?_, ?_⟩ <;> simp [initContract, h]

theorem init_once_witness :
    initContract initState 5 = (Except.error Error.NoInicializado, initState) ∧
    ((initContract emptyState 3).2).admin = some 3 :=
  ⟨((init_once initState 5).1 rfl).1, ((init_once emptyState 3).2 rfl).2.1⟩

/-- C7: with Admin a stored, reset_contador by any caller other than a fails
with NoAutorizado and changes nothing, while reset_contador by a sets the
global counter to 0 and leaves the admin, every per-user counter and every
last greeting untouched. -/
theorem reset_admin_only (s : State) (a c : Addr) (h : s.admin = some a) :
    (c ≠ a → reset_contador s c = (Except.error Error.NoAutorizado, s)) ∧
    (reset_contador s a).1 = Except.ok () ∧
    ((reset_contador s a).2).contadorSaludos = some 0 ∧
    ((reset_contador s a).2).admin = s.admin ∧
    ((reset_contador s a).2).contadorPorUsuario = s.contadorPorUsuario ∧
    ((reset_contador s a).2).ultimoSaludo = s.ultimoSaludo := by
  refine ⟨?_, ?_, ?_, ?_, ?_, ?_⟩ <;> simp [reset_contador, h]

theorem reset_admin_only_witness :
    reset_contador initState 9 = (Except.error Error.NoAutorizado, initState) ∧
    ((reset_contador initState 0).2).contadorSaludos = some 0 :=
  ⟨(reset_admin_only initState 0 9 rfl).1 (by decide),
   (reset_admin_only initState 0 9 rfl).2.2.1⟩

/-- C6: with Admin a stored, transfer_admin by any caller other than a fails
with NoAutorizado and changes nothing; a successful transfer by a overwrites
only the Admin record (counters, greetings and all TTLs are untouched, so no
TTL refresh happens), and afterwards exactly the new admin passes the
authorization check of reset_contador and transfer_admin, every other
caller, the old admin included, being rejected with NoAutorizado. -/
theorem transfer_admin_auth (s : State) (a nuevo c x : Addr)
    (h : s.admin = some a) :
    (c ≠ a → transfer_admin s c nuevo = (Except.error Error.NoAutorizado, s)) ∧
    (transfer_admin s a nuevo).1 = Except.ok () ∧
    ((transfer_admin s a nuevo).2).admin = some nuevo ∧
    ((transfer_admin s a nuevo).2).contadorSaludos = s.contadorSaludos ∧
    ((transfer_admin s a nuevo).2).contadorPorUsuario = s.contadorPorUsuario ∧
    ((transfer_admin s a nuevo).2).ultimoSaludo = s.ultimoSaludo ∧
    ((transfer_admin s a nuevo).2).instanceTtl = s.instanceTtl ∧
    ((transfer_admin s a nuevo).2).contadorUsuarioTtl = s.contadorUsuarioTtl ∧
    ((transfer_admin s a nuevo).2).ultimoSaludoTtl = s.ultimoSaludoTtl ∧
    ((reset_contador (transfer_admin s a nuevo).2 c).1 = Except.ok () ↔
      c = nuevo) ∧
    ((transfer_admin (transfer_admin s a nuevo).2 c x).1 = Except.ok () ↔
      c = nuevo) ∧
    (c ≠ nuevo →
      (reset_contador (transfer_admin s a nuevo).2 c).1 =
        Except.error Error.NoAutorizado ∧
      (transfer_admin (transfer_admin s a nuevo).2 c x).1 =
        Except.error Error.NoAutorizado) := by
  refine ⟨?_, ?_, ?_, ?_, ?_, ?_, ?_, ?_, ?_, ?_, ?_, ?_⟩ <;>
    simp [transfer_admin, reset_contador, h]
  all_goals rcases eq_or_ne c nuevo with hc | hc <;> simp [hc]

theorem transfer_admin_auth_witness :
    (transfer_admin initState 0 4).1 = Except.ok () ∧
    ((transfer_admin initState 0 4).2).admin = some 4 ∧
    (reset_contador (transfer_admin initState 0 4).2 0).1 =
      Except.error Error.NoAutorizado :=
  ⟨(transfer_admin_auth initState 0 4 0 1 rfl).2.1,
   (transfer_admin_auth initState 0 4 0 1 rfl).2.2.1,
   ((transfer_admin_auth initState 0 4 0 1 rfl).2.2.2.2.2.2.2.2.2.2.2
      (by decide)).1⟩

/-- C3: for a non-empty name, hello fails with NombreMuyLargo and returns the
state unchanged whenever the XDR byte length of the name exceeds 32, and
returns the reply Hola (no error) whenever that length is exactly 32. -/
theorem hello_length_boundary (s : State) (usuario : Addr) (nombre : String)
    (hne : nombre ≠ "") :
    (32 < symbolXdrLen nombre →
      hello s usuario nombre = (Except.error Error.NombreMuyLargo, s)) ∧
    (symbolXdrLen nombre = 32 →
      (hello s usuario nombre).1 = Except.ok "Hola") := by
  constructor
  · intro hlong
    simp [hello, hne, hlong]
  · intro heq
    rw [hello_ok s usuario nombre hne (by omega)]

theorem hello_length_boundary_witness :
    symbolXdrLen "abcdefghijklmnopqrstu" = 32 ∧
    (hello emptyState 6 "abcdefghijklmnopqrstu").1 = Except.ok "Hola" :=
  ⟨by decide,
   (hello_length_boundary emptyState 6 "abcdefghijklmnopqrstu"
      (by decide)).2 (by decide)⟩

/-- C2 counterexample: the uninitialized contract (no Admin record) does not
reject hello with NoInicializado; a valid greeting succeeds there and even
changes the counters. -/
theorem uninit_hello_succeeds :
    emptyState.admin = none ∧
    (hello emptyState 0 "Ana").1 = Except.ok "Hola" ∧
    (hello emptyState 0 "Ana").1 ≠ Except.error Error.NoInicializado ∧
    ((hello emptyState 0 "Ana").2).contadorSaludos = some 1 := by
  have h2 : (hello emptyState 0 "Ana").1 = Except.ok "Hola" := rfl
  refine ⟨rfl, h2, ?_, rfl⟩
  rw [h2]
  exact fun hcon => Except.noConfusion hcon

/-- C2 amended: on every uninitialized state, reset_contador and
transfer_admin fail with NoInicializado and leave the state unchanged, while
hello performs no initialization check at all: a valid greeting succeeds even
on an uninitialized state. -/
theorem uninit_gating (s : State) (c n usuario : Addr) (nombre : String)
    (h : s.admin = none) :
    reset_contador s c = (Except.error Error.NoInicializado, s) ∧
    transfer_admin s c n = (Except.error Error.NoInicializado, s) ∧
    (nombre ≠ "" → ¬ 32 < symbolXdrLen nombre →
      (hello s usuario nombre).1 = Except.ok "Hola") := by
  refine ⟨?_, ?_, ?_⟩
  · simp [reset_contador, h]
  · simp [transfer_admin, h]
  · intro hne hlen
    rw [hello_ok s usuario nombre hne hlen]

theorem uninit_gating_witness :
    reset_contador emptyState 2 = (Except.error Error.NoInicializado, emptyState) ∧
    (hello emptyState 2 "Ana").1 = Except.ok "Hola" :=
  ⟨(uninit_gating emptyState 2 3 2 "Ana" rfl).1,
   (uninit_gating emptyState 2 3 2 "Ana" rfl).2.2 (by decide) (by decide)⟩

/-- C1 counterexample: in the initialized state whose counters hold the u32
maximum 2^32 - 1, a successful hello call wraps the global counter to 0
instead of incrementing it by exactly 1. -/
theorem hello_increment_overflow :
    maxState.contadorSaludos = some (U32MOD - 1) ∧
    (hello maxState 1 "Ana").1 = Except.ok "Hola" ∧
    ((hello maxState 1 "Ana").2).contadorSaludos = some 0 ∧
    ((hello maxState 1 "Ana").2).contadorSaludos ≠ some ((U32MOD - 1) + 1) ∧
    ((hello maxState 1 "Ana").2).contadorPorUsuario 1 = some 0 :=
  ⟨rfl, rfl, rfl, by decide, rfl⟩

/-- C1 amended: a successful hello increments the global counter and the
calling user's counter by exactly 1 modulo 2^32 (by exactly 1 whenever the
stored value is below 2^32 - 1), leaves every other user's counter
unchanged, stores the given text as the user's last greeting, and returns
the fixed reply Hola. -/
theorem hello_success_effects (s : State) (usuario v : Addr)
    (nombre : String) (hne : nombre ≠ "")
    (hlen : ¬ 32 < symbolXdrLen nombre) :
    (hello s usuario nombre).1 = Except.ok "Hola" ∧
    ((hello s usuario nombre).2).contadorSaludos =
      some (((s.contadorSaludos).getD 0 + 1) % U32MOD) ∧
    ((hello s usuario nombre).2).contadorPorUsuario usuario =
      some (((s.contadorPorUsuario usuario).getD 0 + 1) % U32MOD) ∧
    (v ≠ usuario →
      ((hello s usuario nombre).2).contadorPorUsuario v =
        s.contadorPorUsuario v) ∧
    ((hello s usuario nombre).2).ultimoSaludo usuario = some nombre ∧
    ((s.contadorSaludos).getD 0 < U32MOD - 1 →
      ((hello s usuario nombre).2).contadorSaludos =
        some ((s.contadorSaludos).getD 0 + 1)) ∧
    ((s.contadorPorUsuario usuario).getD 0 < U32MOD - 1 →
      ((hello s usuario nombre).2).contadorPorUsuario usuario =
        some ((s.contadorPorUsuario usuario).getD 0 + 1)) := by
  have hM : U32MOD = 4294967296 := rfl
  rw [hello_ok s usuario nombre hne hlen]
  refine ⟨rfl, rfl, by simp, ?_, by simp, ?_, ?_⟩
  · intro hv; simp [hv]
  · intro hlt
    have hmod : ((s.contadorSaludos).getD 0 + 1) % U32MOD =
        (s.contadorSaludos).getD 0 + 1 := Nat.mod_eq_of_lt (by omega)
    simp [hmod]
  · intro hlt
    have hmod : ((s.contadorPorUsuario usuario).getD 0 + 1) % U32MOD =
        (s.contadorPorUsuario usuario).getD 0 + 1 :=
      Nat.mod_eq_of_lt (by omega)
    simp [hmod]

theorem hello_success_effects_witness :
    (hello initState 2 "Ana").1 = Except.ok "Hola" ∧
    ((hello initState 2 "Ana").2).contadorSaludos = some 1 ∧
    ((hello initState 2 "Ana").2).contadorPorUsuario 2 = some 1 ∧
    ((hello initState 2 "Ana").2).contadorPorUsuario 3 =
      initState.contadorPorUsuario 3 ∧
    ((hello initState 2 "Ana").2).ultimoSaludo 2 = some "Ana" :=
  have h := hello_success_effects initState 2 3 "Ana" (by decide) (by decide)
  ⟨h.1, h.2.1.trans rfl, h.2.2.1.trans rfl, h.2.2.2.1 (by decide),
   h.2.2.2.2.1⟩

/-- Every iterate of the greeting loop is reachable from the uninitialized
contract, and after k greetings both the global counter and user 0's counter
hold k modulo 2^32. -/
theorem helloIter_spec (k : Nat) :
    Reachable (helloIter k) ∧
    (helloIter k).contadorSaludos = some (k % U32MOD) ∧
    ((helloIter k).contadorPorUsuario 0).getD 0 = k % U32MOD := by
  induction k with
  | zero =>
    exact ⟨Relation.ReflTransGen.single (Step.init emptyState 0), rfl, rfl⟩
  | succ k ih =>
    obtain ⟨hr, hc, hu⟩ := ih
    have hstep := hello_ok (helloIter k) 0 "A" (by decide) (by decide)
    refine ⟨Relation.ReflTransGen.tail hr (Step.greet (helloIter k) 0 "A"),
      ?_, ?_⟩
    · show ((hello (helloIter k) 0 "A").2).contadorSaludos =
        some ((k + 1) % U32MOD)
      rw [hstep]
      simp [hc, Nat.mod_add_mod]
    · show (((hello (helloIter k) 0 "A").2).contadorPorUsuario 0).getD 0 =
        (k + 1) % U32MOD
      rw [hstep]
      simp [hu, Nat.mod_add_mod]

/-- C10: the counter additions in hello are unguarded u32 additions: there is
a reachable state whose global counter (and calling user's counter) holds
2^32 - 1 where a further successful hello wraps both counters to 0 rather
than incrementing them by 1. -/
theorem counter_wraps_at_max :
    ∃ s : State, Reachable s ∧ s.contadorSaludos = some (U32MOD - 1) ∧
      (s.contadorPorUsuario 0).getD 0 = U32MOD - 1 ∧
      (hello s 0 "A").1 = Except.ok "Hola" ∧
      ((hello s 0 "A").2).contadorSaludos = some 0 ∧
      ((hello s 0 "A").2).contadorSaludos ≠ some ((U32MOD - 1) + 1) ∧
      ((hello s 0 "A").2).contadorPorUsuario 0 = some 0 := by
  have hM : U32MOD = 4294967296 := rfl
  obtain ⟨hr, hc, hu⟩ := helloIter_spec (U32MOD - 1)
  have hmod : (U32MOD - 1) % U32MOD = U32MOD - 1 :=
    Nat.mod_eq_of_lt (by omega)
  have hwrap : (U32MOD - 1 + 1) % U32MOD = 0 := by
    simp only [hM]
  have hstep := hello_ok (helloIter (U32MOD - 1)) 0 "A" (by decide) (by decide)
  refine ⟨helloIter (U32MOD - 1), hr, by rw [hc, hmod], by rw [hu, hmod],
    ?_, ?_, ?_, ?_⟩
  · rw [hstep]
  · rw [hstep]
    simp [hc, hmod, hwrap]
  · rw [hstep]
    simp only [hc]
    simp [hmod, hwrap]
  · rw [hstep]
    simp [hu, hmod, hwrap]

end HelloTiburona
